import Mathlib

/-!
Verification of the voice-pipeline repository against its design spec.

The embedding below translates the relevant source functions:
  * `app/processors.py` — `RewardProcessor.process_frame` and
    `RewardProcessor._update_reward_store`
  * `app/ultravox_service.py` — `UltravoxPipecatService.process_frame`,
    `_cleanup`, and `_receive_audio_loop`
  * `app/rag.py` — `build_system_prompt`

Python floats carrying user deltas and rewards are modelled as rationals
(only comparison against 50 and the literals +-1.0 occur); Python dicts
looked up with `.get` are modelled as association lists; audio byte
payloads are lists of bytes (Nat).
-/

/-- Severity levels of the `logging` calls, as used in the source. -/
inductive LogLevel
  | debug
  | info
  | warning
  | error
  deriving DecidableEq, Repr

/-- A log record: a severity and a message string. -/
abbrev LogEvent := LogLevel × String

/-- A Python dict whose keys and queried values are strings, as an
association list; the source only reads string-valued fields. -/
abbrev Dict := List (String × String)

/-- Python `d.get(k)`: `some v` for the first binding of `k`, else `none`. -/
def dictGet (md : Dict) (k : String) : Option String :=
  match md with
  | [] => none
  | (k1, v) :: rest => if k1 = k then some v else dictGet rest k

/-- Python `d.get(k, default)`. -/
def dictGetD (md : Dict) (k : String) (d : String) : String :=
  (dictGet md k).getD d

/-- Python truthiness of an optional string: `None` and `""` are falsy. -/
def truthy (o : Option String) : Bool :=
  match o with
  | none => false
  | some s => !s.isEmpty

/-- The `ActionFeedbackFrame` of `app/processors.py`: feedback from the
consumer about an action, with a metadata dict. -/
structure ActionFeedbackFrame where
  action_id : String
  success : Bool
  user_delta : ℚ
  metadata : Dict

/-- Frames as seen by the `RewardProcessor` stage: the pipeline lifecycle
frames, the feedback frame, and any other frame (pass-through). -/
inductive PFrame
  | startF
  | endF
  | cancelF
  | feedback (f : ActionFeedbackFrame)
  | otherF (tag : String)

/-- The `reward_update` analytics event logged through
`conversation_logger.log_event` in `RewardProcessor.process_frame`. -/
structure AuditEvent where
  event_type : String
  action_id : String
  reward : ℚ
  delta : ℚ

/-- The reward-persistence record emitted by
`RewardProcessor._update_reward_store` (the source logs
`RL PERSIST: Key=..., Mask=..., Reward=...`, standing for the production
call `redis.hincrbyfloat(rl_key, mask_id, reward)`). -/
structure PersistEvent where
  rl_key : String
  mask_id : String
  reward : ℚ

/-- Embedding of `RewardProcessor._update_reward_store`
(`app/processors.py` lines 85-103): reads the three metadata fields,
skips with a warning when the Python truthiness conjunction fails, and
otherwise emits the persistence record under the composite key
`rewards:{screen_state_hash}:{user_intent}` with field `sam_mask_id`. -/
def updateRewardStoreStep (action_id : String) (reward : ℚ) (metadata : Dict) :
    Option PersistEvent × List LogEvent :=
  let screen_hash := dictGet metadata "screen_state_hash"
  let intent := dictGet metadata "user_intent"
  let mask_id := dictGet metadata "sam_mask_id"
  if truthy screen_hash && truthy intent && truthy mask_id then
    let rl_key := "rewards:" ++ screen_hash.getD "" ++ ":" ++ intent.getD ""
    (some { rl_key := rl_key, mask_id := mask_id.getD "", reward := reward },
     [(LogLevel.info, "RL PERSIST: Key=" ++ rl_key)])
  else
    (none, [(LogLevel.warning, "Missing RL metadata for action " ++ action_id)])

/-- Everything `RewardProcessor.process_frame` does on one frame: frames
pushed downstream, the optional persistence record, analytics audit
events, log lines, and whether the frame was diverted to the parent
lifecycle handler. -/
structure RPOutput where
  pushed : List PFrame
  persist : Option PersistEvent
  audit : List AuditEvent
  logs : List LogEvent
  parentHandled : Bool

/-- Embedding of `RewardProcessor.process_frame`
(`app/processors.py` lines 46-73): lifecycle frames go to the parent
handler and return; an `ActionFeedbackFrame` is logged, its reward
computed as `1.0 if success and user_delta < 50 else -1.0`, the reward
store updated, a `reward_update` analytics event logged; every
non-lifecycle frame is then pushed downstream. -/
def rewardProcessorStep (frame : PFrame) : RPOutput :=
  match frame with
  | .startF => { pushed := [], persist := none, audit := [], logs := [], parentHandled := true }
  | .endF => { pushed := [], persist := none, audit := [], logs := [], parentHandled := true }
  | .cancelF => { pushed := [], persist := none, audit := [], logs := [], parentHandled := true }
  | .feedback f =>
    let reward : ℚ := if f.success ∧ f.user_delta < 50 then 1 else -1
    let upd := updateRewardStoreStep f.action_id reward f.metadata
    { pushed := [frame],
      persist := upd.1,
      audit := [{ event_type := "reward_update", action_id := f.action_id,
                  reward := reward, delta := f.user_delta }],
      logs := (LogLevel.info, "Received feedback for action " ++ f.action_id) :: upd.2,
      parentHandled := false }
  | .otherF _ => { pushed := [frame], persist := none, audit := [], logs := [], parentHandled := false }

/-- The reward formula exactly as the spec words it: `+1.0` if
`success == true AND userDelta < 50`, else `-1.0`. Stated separately from
the embedding so the code's formula can be compared against it. -/
def specReward (success : Bool) (userDelta : ℚ) : ℚ :=
  if success = true ∧ userDelta < 50 then 1 else -1

/-- C1: for every ActionFeedback frame processed by the RewardProcessor,
the computed reward (the one recorded in the `reward_update` audit event)
equals `+1.0` exactly when `success` is true and `userDelta < 50`, and
`-1.0` in every other case — the spec's formula `specReward`. -/
theorem C1_reward_formula (f : ActionFeedbackFrame) :
    (rewardProcessorStep (.feedback f)).audit.map AuditEvent.reward
      = [specReward f.success f.user_delta] := by
  by_cases h : f.success = true ∧ f.user_delta < 50 <;>
    simp [rewardProcessorStep, specReward, h]

/-- Modelled from the spec: the reward-persistence store itself (the
production `redis.hincrbyfloat` named in the source comment of
`_update_reward_store`) is an external collaborator, not code of this
repository. Per the spec, it is a map from the composite key to a float,
with additive-increment writes. Keys pair the Redis hash key
`rewards:{screen}:{intent}` with the field `sam_mask_id`. -/
abbrev RewardStore := List ((String × String) × ℚ)

/-- Current accumulated reward for a key (0 when absent, as for Redis
`hincrbyfloat` on a missing field). -/
def storeGet (st : RewardStore) (k : String × String) : ℚ :=
  match st with
  | [] => 0
  | (k1, v) :: rest => if k1 = k then v else storeGet rest k

/-- Modelled from the spec: applying one persistence record increments the
entry for its composite key (Redis `hincrbyfloat` semantics: create at the
delta when absent, add to the current value when present). -/
def applyPersist (st : RewardStore) (e : PersistEvent) : RewardStore :=
  match st with
  | [] => [((e.rl_key, e.mask_id), e.reward)]
  | (k1, v) :: rest =>
    if k1 = (e.rl_key, e.mask_id) then (k1, v + e.reward) :: rest
    else (k1, v) :: applyPersist rest e

theorem storeGet_applyPersist_self (st : RewardStore) (e : PersistEvent) :
    storeGet (applyPersist st e) (e.rl_key, e.mask_id)
      = storeGet st (e.rl_key, e.mask_id) + e.reward := by
  induction st with
  | nil => simp [storeGet, applyPersist]
  | cons hd rest ih =>
    obtain ⟨k1, v⟩ := hd
    by_cases h : k1 = (e.rl_key, e.mask_id) <;>
      simp [storeGet, applyPersist, h, ih]

theorem storeGet_applyPersist_ne (st : RewardStore) (e : PersistEvent)
    (k : String × String) (hk : k ≠ (e.rl_key, e.mask_id)) :
    storeGet (applyPersist st e) k = storeGet st k := by
  induction st with
  | nil => simp [storeGet, applyPersist, Ne.symm hk]
  | cons hd rest ih =>
    obtain ⟨k1, v⟩ := hd
    by_cases h : k1 = (e.rl_key, e.mask_id)
    · subst h
      simp [storeGet, applyPersist, Ne.symm hk]
    · simp [storeGet, applyPersist, h, ih]

/-- C2: for a feedback frame whose metadata carries all three (nonempty)
composite-key fields, the processor emits exactly one persistence record;
applied to any current store, it increments the entry for the composite
key by the computed reward, leaves every other entry unchanged, and the
processor appends one audit record for the frame. -/
theorem C2_additive_update (f : ActionFeedbackFrame) (st : RewardStore)
    (s i m : String)
    (hs : dictGet f.metadata "screen_state_hash" = some s) (hs2 : s.isEmpty = false)
    (hi : dictGet f.metadata "user_intent" = some i) (hi2 : i.isEmpty = false)
    (hm : dictGet f.metadata "sam_mask_id" = some m) (hm2 : m.isEmpty = false) :
    ∃ e : PersistEvent,
      (rewardProcessorStep (.feedback f)).persist = some e ∧
      e.rl_key = "rewards:" ++ s ++ ":" ++ i ∧
      e.mask_id = m ∧
      e.reward = specReward f.success f.user_delta ∧
      storeGet (applyPersist st e) (e.rl_key, e.mask_id)
        = storeGet st (e.rl_key, e.mask_id) + specReward f.success f.user_delta ∧
      (∀ k, k ≠ (e.rl_key, e.mask_id) → storeGet (applyPersist st e) k = storeGet st k) ∧
      (rewardProcessorStep (.feedback f)).audit
        = [{ event_type := "reward_update", action_id := f.action_id,
             reward := specReward f.success f.user_delta, delta := f.user_delta }] := by
  refine ⟨{ rl_key := "rewards:" ++ s ++ ":" ++ i, mask_id := m,
            reward := specReward f.success f.user_delta }, ?_, rfl, rfl, rfl, ?_, ?_, ?_⟩
  · simp only [rewardProcessorStep, updateRewardStoreStep, hs, hi, hm, truthy,
      hs2, hi2, hm2, Option.getD_some, Bool.not_false, Bool.and_self, if_true, specReward]
  · exact storeGet_applyPersist_self st _
  · exact fun k hk => storeGet_applyPersist_ne st _ k hk
  · simp [rewardProcessorStep, specReward]

/-- A concrete feedback frame with complete composite-key metadata (the
spec's scenario `{success: true, userDelta: 12.5, metadata: complete}`). -/
def completeFeedback : ActionFeedbackFrame :=
  { action_id := "a1", success := true, user_delta := 25/2,
    metadata := [("screen_state_hash", "h0"), ("user_intent", "open"),
                 ("sam_mask_id", "m7")] }

theorem C2_additive_update_witness :
    ∃ e : PersistEvent,
      (rewardProcessorStep (.feedback completeFeedback)).persist = some e ∧
      e.rl_key = "rewards:" ++ "h0" ++ ":" ++ "open" ∧
      e.mask_id = "m7" ∧
      e.reward = specReward true (25/2) ∧
      storeGet (applyPersist [] e) (e.rl_key, e.mask_id)
        = storeGet [] (e.rl_key, e.mask_id) + specReward true (25/2) ∧
      (∀ k, k ≠ (e.rl_key, e.mask_id) → storeGet (applyPersist [] e) k = storeGet [] k) ∧
      (rewardProcessorStep (.feedback completeFeedback)).audit
        = [{ event_type := "reward_update", action_id := "a1",
             reward := specReward true (25/2), delta := 25/2 }] :=
  C2_additive_update completeFeedback
    [] "h0" "open" "m7" (by rfl) (by rfl) (by rfl) (by rfl) (by rfl) (by rfl)

/-- C3: when any of the three composite-key metadata fields is absent, the
processor emits no persistence record (no partial key), emits a warning
log, and still pushes the frame downstream. -/
theorem C3_missing_metadata_skips (f : ActionFeedbackFrame)
    (h : dictGet f.metadata "screen_state_hash" = none ∨
         dictGet f.metadata "user_intent" = none ∨
         dictGet f.metadata "sam_mask_id" = none) :
    (rewardProcessorStep (.feedback f)).persist = none ∧
    (LogLevel.warning, "Missing RL metadata for action " ++ f.action_id)
      ∈ (rewardProcessorStep (.feedback f)).logs ∧
    (rewardProcessorStep (.feedback f)).pushed = [.feedback f] := by
  have hcond : (truthy (dictGet f.metadata "screen_state_hash") &&
      truthy (dictGet f.metadata "user_intent") &&
      truthy (dictGet f.metadata "sam_mask_id")) = false := by
    rcases h with h | h | h <;> simp [h, truthy]
  refine ⟨?_, ?_, ?_⟩ <;>
    simp [rewardProcessorStep, updateRewardStoreStep, hcond]

/-- A concrete feedback frame whose metadata lacks `user_intent` (the
spec's scenario "feedback with metadata missing `intent`"). -/
def missingIntentFeedback : ActionFeedbackFrame :=
  { action_id := "a2", success := true, user_delta := 3,
    metadata := [("screen_state_hash", "h0"), ("sam_mask_id", "m7")] }

theorem C3_missing_metadata_skips_witness :
    (dictGet missingIntentFeedback.metadata "screen_state_hash" = none ∨
     dictGet missingIntentFeedback.metadata "user_intent" = none ∨
     dictGet missingIntentFeedback.metadata "sam_mask_id" = none) ∧
    ((rewardProcessorStep (.feedback missingIntentFeedback)).persist = none ∧
     (LogLevel.warning, "Missing RL metadata for action " ++ missingIntentFeedback.action_id)
       ∈ (rewardProcessorStep (.feedback missingIntentFeedback)).logs ∧
     (rewardProcessorStep (.feedback missingIntentFeedback)).pushed
       = [PFrame.feedback missingIntentFeedback]) :=
  ⟨Or.inr (Or.inl (by rfl)),
   C3_missing_metadata_skips missingIntentFeedback (Or.inr (Or.inl (by rfl)))⟩

/-- C10: for every ActionFeedback frame, exactly one `reward_update`
audit event carrying the action id, the computed reward, and the user
delta is logged — unconditionally, so in particular also when the
composite-key metadata is incomplete and `persist` is `none`. -/
theorem C10_audit_unconditional (f : ActionFeedbackFrame) :
    (rewardProcessorStep (.feedback f)).audit
      = [{ event_type := "reward_update", action_id := f.action_id,
           reward := if f.success ∧ f.user_delta < 50 then 1 else -1,
           delta := f.user_delta }] := by
  simp [rewardProcessorStep]

/-- Frames the duplex bridge can push toward the pipeline. The source's
receive loop can construct `OutputAudioRawFrame`s (`audioOut`); the
`transcriptText` variant is the logical TranscriptText frame of the frame
vocabulary, included so that claims about its emission can be stated. -/
inductive BridgeFrame
  | audioOut (audio : List Nat) (sample_rate : Nat) (num_channels : Nat)
  | transcriptText (text : String) (is_final : Bool)
  deriving DecidableEq, Repr

/-- One inbound WebSocket message as classified by `_receive_audio_loop`:
binary audio, text (already split on whether `json.loads` succeeds — the
parse result is the dict, `none` meaning non-JSON), transport error, or
close. -/
inductive WSMessage
  | binary (data : List Nat)
  | text (payload : Option Dict)
  | wsError
  | wsClosed

/-- What one iteration of the receive loop produces: frames pushed toward
the pipeline, log lines, and whether the loop breaks. -/
structure RecvOutput where
  frames : List BridgeFrame
  logs : List LogEvent
  stop : Bool
  deriving DecidableEq, Repr

/-- Embedding of one iteration of `_receive_audio_loop`
(`app/ultravox_service.py` lines 197-244): a binary message becomes one
`OutputAudioRawFrame` with that payload at 24000 Hz mono; a text message
is JSON-parsed and `transcript` / `agent_response` / `state` messages are
only logged (no frame is pushed); a non-JSON text, or an unknown type, is
logged at debug level or ignored; error/close messages break the loop. -/
def receiveStep (msg : WSMessage) : RecvOutput :=
  match msg with
  | .binary data =>
    { frames := [.audioOut data 24000 1], logs := [], stop := false }
  | .text payload =>
    match payload with
    | none =>
      { frames := [], logs := [(LogLevel.debug, "Non-JSON text message from Ultravox")],
        stop := false }
    | some data =>
      let msg_type := dictGet data "type"
      if msg_type = some "transcript" then
        let transcript := dictGetD data "text" ""
        let role := dictGetD data "role" "user"
        if transcript.isEmpty then { frames := [], logs := [], stop := false }
        else { frames := [], logs := [(LogLevel.info, "[" ++ role ++ "]: " ++ transcript)],
               stop := false }
      else if msg_type = some "agent_response" then
        let t := dictGetD data "text" ""
        if t.isEmpty then { frames := [], logs := [], stop := false }
        else { frames := [], logs := [(LogLevel.info, "[agent]: " ++ t)], stop := false }
      else if msg_type = some "state" then
        { frames := [], logs := [(LogLevel.debug, "Ultravox state: " ++ dictGetD data "state" "")],
          stop := false }
      else { frames := [], logs := [], stop := false }
  | .wsError =>
    { frames := [], logs := [(LogLevel.error, "Ultravox WebSocket error")], stop := true }
  | .wsClosed =>
    { frames := [], logs := [(LogLevel.info, "Ultravox WebSocket closed")], stop := true }

/-- The spec's end-to-end transcript message
`{"type":"transcript","text":"hello","role":"user"}`. -/
def helloTranscriptMsg : Dict :=
  [("type", "transcript"), ("text", "hello"), ("role", "user")]

/-- C4 counterexample: on the inbound text message
`{"type":"transcript","text":"hello","role":"user"}` the receive loop
pushes no frame at all — in particular no `TranscriptText{text:"hello"}`
— it only logs the transcript; so the claim that a TranscriptText frame
is emitted is false on the code. -/
theorem C4_counterexample :
    (receiveStep (.text (some helloTranscriptMsg))).frames = [] ∧
    (¬ ∃ fin, BridgeFrame.transcriptText "hello" fin
        ∈ (receiveStep (.text (some helloTranscriptMsg))).frames) ∧
    (receiveStep (.text (some helloTranscriptMsg))).logs
      = [(LogLevel.info, "[user]: hello")] := by
  refine ⟨by rfl, ?_, by rfl⟩
  rintro ⟨fin, hf⟩
  cases fin <;> revert hf <;> decide

/-- C4 amended: for every inbound text message whose parsed type is
`transcript` and whose `text` field is nonempty, the bridge emits no
frame at all (in particular no AudioChunk and no TranscriptText) and logs
the transcript at info level, tagged with the message's role. -/
theorem C4_transcript_logged_only (data : Dict)
    (htype : dictGet data "type" = some "transcript")
    (htext : (dictGetD data "text" "").isEmpty = false) :
    (receiveStep (.text (some data))).frames = [] ∧
    (receiveStep (.text (some data))).logs
      = [(LogLevel.info, "[" ++ dictGetD data "role" "user" ++ "]: "
          ++ dictGetD data "text" "")] := by
  constructor <;> simp [receiveStep, htype, htext]

theorem C4_transcript_logged_only_witness :
    dictGet helloTranscriptMsg "type" = some "transcript" ∧
    (dictGetD helloTranscriptMsg "text" "").isEmpty = false ∧
    ((receiveStep (.text (some helloTranscriptMsg))).frames = [] ∧
     (receiveStep (.text (some helloTranscriptMsg))).logs
       = [(LogLevel.info, "[" ++ dictGetD helloTranscriptMsg "role" "user" ++ "]: "
           ++ dictGetD helloTranscriptMsg "text" "")]) :=
  ⟨by rfl, by rfl, C4_transcript_logged_only helloTranscriptMsg (by rfl) (by rfl)⟩

/-- C5: every inbound binary message yields exactly one downstream audio
frame whose payload is exactly the message's bytes (same list, hence the
same length), with sample rate 24000 and one channel, and the loop
continues. -/
theorem C5_binary_passthrough (data : List Nat) :
    (receiveStep (.binary data)).frames = [.audioOut data 24000 1] ∧
    (receiveStep (.binary data)).frames.length = 1 ∧
    (receiveStep (.binary data)).stop = false := by
  refine ⟨rfl, rfl, rfl⟩

/-- The mutable state of `UltravoxPipecatService` that `process_frame` and
`_cleanup` touch: the three boolean flags, and the three owned resources.
Each resource is `none` while never created, `some b` once created with
`b` recording whether it is still live (task not cancelled / socket or
session not closed). -/
structure BridgeState where
  ready : Bool
  started : Bool
  pipeline_ready : Bool
  receive_task : Option Bool
  ws : Option Bool
  session : Option Bool
  deriving DecidableEq, Repr

/-- Embedding of `UltravoxPipecatService._cleanup`
(`app/ultravox_service.py` lines 91-110): clears the three flags, cancels
the receive task if one exists, closes the WebSocket if one exists,
closes the HTTP session if one exists. Cancelling an already-cancelled
task and closing an already-closed socket/session leave them closed. -/
def cleanup (s : BridgeState) : BridgeState :=
  { ready := false
    started := false
    pipeline_ready := false
    receive_task := s.receive_task.map (fun _ => false)
    ws := s.ws.map (fun _ => false)
    session := s.session.map (fun _ => false) }

/-- Frames arriving at the bridge's `process_frame`. -/
inductive InFrame
  | startF
  | endSignal
  | cancelSignal
  | audioIn (audio : List Nat)
  | otherF (tag : String)
  deriving DecidableEq, Repr

/-- One `process_frame` step of the bridge: the successor state, the
frames forwarded to the next stage, the audio payloads sent over the
WebSocket, and whether a background initialization task was spawned. -/
structure BridgeStep where
  state : BridgeState
  pushed : List InFrame
  sends : List (List Nat)
  spawnedInit : Bool
  deriving DecidableEq, Repr

/-- Embedding of `UltravoxPipecatService.process_frame`
(`app/ultravox_service.py` lines 114-145): `StartFrame` is pushed first
and initialization spawned if not yet started; `EndFrame`/`CancelFrame`
run `_cleanup` and then forward the frame; input audio is sent to the
WebSocket only when `_ready` and a WebSocket object exists (and
`_send_audio` itself only writes when the socket is not closed), and is
never pushed downstream; all other frames pass through. -/
def bridgeStep (s : BridgeState) (f : InFrame) : BridgeStep :=
  match f with
  | .startF =>
    { state := s, pushed := [f], sends := [], spawnedInit := !s.started }
  | .endSignal =>
    { state := cleanup s, pushed := [f], sends := [], spawnedInit := false }
  | .cancelSignal =>
    { state := cleanup s, pushed := [f], sends := [], spawnedInit := false }
  | .audioIn a =>
    if s.ready && s.ws.isSome then
      { state := s, pushed := [],
        sends := if s.ws = some true then [a] else [], spawnedInit := false }
    else
      { state := s, pushed := [], sends := [], spawnedInit := false }
  | .otherF _ =>
    { state := s, pushed := [f], sends := [], spawnedInit := false }

/-- C6: teardown is idempotent. Running `_cleanup` twice equals running it
once, and after a first CancelSignal has driven teardown, a second
CancelSignal (or EndSignal) leaves the state exactly as it was, sends
nothing, spawns nothing, and does nothing beyond forwarding the control
frame. -/
theorem C6_teardown_idempotent (s : BridgeState) :
    cleanup (cleanup s) = cleanup s ∧
    (bridgeStep (bridgeStep s .cancelSignal).state .cancelSignal).state
      = (bridgeStep s .cancelSignal).state ∧
    bridgeStep (bridgeStep s .cancelSignal).state .cancelSignal
      = { state := (bridgeStep s .cancelSignal).state,
          pushed := [InFrame.cancelSignal], sends := [], spawnedInit := false } ∧
    bridgeStep (bridgeStep s .endSignal).state .cancelSignal
      = { state := (bridgeStep s .endSignal).state,
          pushed := [InFrame.cancelSignal], sends := [], spawnedInit := false } := by
  have hc : cleanup (cleanup s) = cleanup s := by
    cases hr : s.receive_task <;> cases hw : s.ws <;> cases hs : s.session <;>
      simp [cleanup, hr, hw, hs]
  exact ⟨hc, by simp [bridgeStep, hc], by simp [bridgeStep, hc], by simp [bridgeStep, hc]⟩

/-- C7: once teardown has run (after a CancelSignal), every audio frame
delivered to the bridge is ignored: nothing is sent over the connection,
nothing is pushed downstream, and the state does not change (the handler
returns without raising). -/
theorem C7_audio_after_teardown_ignored (s : BridgeState) (a : List Nat) :
    (bridgeStep (bridgeStep s .cancelSignal).state (.audioIn a)).sends = [] ∧
    (bridgeStep (bridgeStep s .cancelSignal).state (.audioIn a)).pushed = [] ∧
    (bridgeStep (bridgeStep s .cancelSignal).state (.audioIn a)).state
      = (bridgeStep s .cancelSignal).state := by
  refine ⟨?_, ?_, ?_⟩ <;> simp [bridgeStep, cleanup]

/-- A piece of a Python format template: literal text, or the
`{rag_context}` placeholder that `template.format(rag_context=...)`
replaces. -/
inductive TplPart
  | lit (s : String)
  | hole
  deriving DecidableEq, Repr

/-- Python `template.format(rag_context=ctx)` for templates whose only
placeholder is `{rag_context}`: literals are copied, each placeholder is
replaced by `ctx`. -/
def formatTpl : List TplPart → String → String
  | [], _ => ""
  | .lit s :: rest, ctx => s ++ formatTpl rest ctx
  | .hole :: rest, ctx => ctx ++ formatTpl rest ctx

/-- The fixed fallback used when the knowledge snippet is empty/blank. -/
def noContextPlaceholder : String := "No specific context provided."

/-- The hardcoded `best_move` of `build_system_prompt`. -/
def bestMove : String := "Coord(450, 200)"

/-- The one-line episodic-memory hint `build_system_prompt` builds from
the hardcoded `best_move`. -/
def episodicMemory : String :=
  "LEARNED STRATEGY: Historically, coordinate " ++ bestMove ++ " was successful here."

/-- Python `not s or s.strip() == ""`: true exactly when the string is
empty or consists only of whitespace. -/
def isBlank (s : String) : Bool :=
  s.data.all Char.isWhitespace

/-- Embedding of `build_system_prompt` (`app/rag.py` lines 60-83).
`ragContext` is the value of the global `current_rag_context` read via
`get_rag_context()`. The `store` argument is the global episodic reward
store in scope at the call: the production pull from it is commented out
in the source (`best_move` is hardcoded), so the result never depends on
it, which the theorems below make explicit. A blank snippet is replaced
by the fixed placeholder, and the context block — snippet plus the
episodic hint — is substituted for the template's placeholder. -/
def buildSystemPrompt (store : RewardStore) (template : List TplPart)
    (ragContext : String) : String :=
  let _ := store
  let domain_knowledge :=
    if isBlank ragContext then noContextPlaceholder else ragContext
  let context_block := domain_knowledge ++ "\n\n" ++ episodicMemory
  formatTpl template context_block

theorem formatTpl_hole_mem (tpl : List TplPart) (c : String)
    (h : TplPart.hole ∈ tpl) :
    ∃ pre post, formatTpl tpl c = pre ++ (c ++ post) := by
  induction tpl with
  | nil => cases h
  | cons p rest ih =>
    cases p with
    | lit s =>
      have h2 : TplPart.hole ∈ rest := by
        cases h with
        | tail _ hmem => exact hmem
      obtain ⟨pre, post, heq⟩ := ih h2
      exact ⟨s ++ pre, post, by simp [formatTpl, heq, String.append_assoc]⟩
    | hole =>
      exact ⟨"", formatTpl rest c, by simp [formatTpl]⟩

/-- C8: for every template containing the placeholder, building with a
blank (empty or whitespace-only) knowledge snippet substitutes the fixed
"No specific context provided." placeholder into the template, and
building with a non-blank snippet produces a prompt containing that
snippet verbatim — for any state of the reward store. -/
theorem C8_prompt_substitution (store : RewardStore) (tpl : List TplPart)
    (ctx : String) (h : TplPart.hole ∈ tpl) :
    (isBlank ctx = true →
      ∃ pre post, buildSystemPrompt store tpl ctx = pre ++ (noContextPlaceholder ++ post)) ∧
    (isBlank ctx = false →
      ∃ pre post, buildSystemPrompt store tpl ctx = pre ++ (ctx ++ post)) := by
  constructor
  · intro hblank
    obtain ⟨pre, post, heq⟩ :=
      formatTpl_hole_mem tpl (noContextPlaceholder ++ "\n\n" ++ episodicMemory) h
    simp only [String.append_assoc] at heq
    exact ⟨pre, "\n\n" ++ (episodicMemory ++ post),
      by simp [buildSystemPrompt, hblank, heq, String.append_assoc]⟩
  · intro hfull
    obtain ⟨pre, post, heq⟩ :=
      formatTpl_hole_mem tpl (ctx ++ "\n\n" ++ episodicMemory) h
    simp only [String.append_assoc] at heq
    exact ⟨pre, "\n\n" ++ (episodicMemory ++ post),
      by simp [buildSystemPrompt, hfull, heq, String.append_assoc]⟩

theorem C8_prompt_substitution_witness :
    (TplPart.hole ∈ [TplPart.lit "SYSTEM: ", TplPart.hole]) ∧
    ((isBlank "hi there" = true →
      ∃ pre post, buildSystemPrompt [] [TplPart.lit "SYSTEM: ", TplPart.hole] "hi there"
        = pre ++ (noContextPlaceholder ++ post)) ∧
     (isBlank "hi there" = false →
      ∃ pre post, buildSystemPrompt [] [TplPart.lit "SYSTEM: ", TplPart.hole] "hi there"
        = pre ++ ("hi there" ++ post))) :=
  ⟨by simp,
   C8_prompt_substitution [] [TplPart.lit "SYSTEM: ", TplPart.hole] "hi there" (by simp)⟩

/-- C9 counterexample: with an empty knowledge snippet and the empty
reward store, the built prompt still contains the "historically learned"
hint — the hint is the fixed line built from the hardcoded
`best_move = "Coord(450, 200)"`, so it is neither derived from the
highest-reward entry of the store nor omitted when the store is empty. -/
theorem C9_counterexample :
    buildSystemPrompt [] [TplPart.hole] ""
      = "No specific context provided.\n\n"
        ++ "LEARNED STRATEGY: Historically, coordinate Coord(450, 200) was successful here." ∧
    (∃ pre post, buildSystemPrompt [] [TplPart.hole] "" = pre ++ (episodicMemory ++ post)) := by
  constructor
  · decide
  · exact ⟨"No specific context provided.\n\n", "", by decide⟩

/-- C9 amended: the "historically learned" hint is the fixed one-line
string built from the hardcoded coordinate `Coord(450, 200)`; it appears
verbatim in every built prompt whose template has the placeholder, and
the result is identical for every state of the reward store (the builder
never consults it), so the hint is in particular not omitted when the
store is empty. -/
theorem C9_fixed_hint_always_present (store store2 : RewardStore)
    (tpl : List TplPart) (ctx : String) (h : TplPart.hole ∈ tpl) :
    (∃ pre post, buildSystemPrompt store tpl ctx = pre ++ (episodicMemory ++ post)) ∧
    buildSystemPrompt store tpl ctx = buildSystemPrompt store2 tpl ctx := by
  constructor
  · obtain ⟨pre, post, heq⟩ := formatTpl_hole_mem tpl
      ((if isBlank ctx then noContextPlaceholder else ctx) ++ "\n\n" ++ episodicMemory) h
    simp only [String.append_assoc] at heq
    refine ⟨pre ++ ((if isBlank ctx then noContextPlaceholder else ctx) ++ "\n\n"), post, ?_⟩
    simp [buildSystemPrompt, heq, String.append_assoc]
  · rfl

theorem C9_fixed_hint_always_present_witness :
    (TplPart.hole ∈ [TplPart.hole]) ∧
    ((∃ pre post, buildSystemPrompt [] [TplPart.hole] "" = pre ++ (episodicMemory ++ post)) ∧
     buildSystemPrompt [] [TplPart.hole] ""
       = buildSystemPrompt [(("k1", "m1"), (5 : ℚ))] [TplPart.hole] "") :=
  ⟨by simp, C9_fixed_hint_always_present [] [(("k1", "m1"), (5 : ℚ))] [TplPart.hole] "" (by simp)⟩
